import Mathlib

/-!
Shallow embedding of the Chrome OS network-state subsystem
(`chrome/browser/chromeos/cros/network_library.cc`): connection-state
machine, credential wiping, unique-id computation, SSID decoding,
cellular data-plan accounting, netmask prefix computation and
certificate-pattern matching.  Definitions mirror the source; helpers
that live outside the snapshot (base library string utilities, the
header-only predicates) are modelled from the specification and marked
as such in their doc comments.
-/

namespace chromeos

/-- Connection states of a network service, in the source's enum order. -/
inductive ConnectionState where
  | STATE_UNKNOWN
  | STATE_IDLE
  | STATE_CARRIER
  | STATE_ASSOCIATION
  | STATE_CONFIGURATION
  | STATE_READY
  | STATE_DISCONNECT
  | STATE_FAILURE
  | STATE_ACTIVATION_FAILURE
  | STATE_PORTAL
  | STATE_ONLINE
deriving DecidableEq, Repr

/-- Connection error codes, as enumerated by `Network::GetErrorString`. -/
inductive ConnectionError where
  | ERROR_NO_ERROR
  | ERROR_OUT_OF_RANGE
  | ERROR_PIN_MISSING
  | ERROR_DHCP_FAILED
  | ERROR_CONNECT_FAILED
  | ERROR_BAD_PASSPHRASE
  | ERROR_BAD_WEPKEY
  | ERROR_ACTIVATION_FAILED
  | ERROR_NEED_EVDO
  | ERROR_NEED_HOME_NETWORK
  | ERROR_OTASP_FAILED
  | ERROR_AAA_FAILED
  | ERROR_INTERNAL
  | ERROR_DNS_LOOKUP_FAILED
  | ERROR_HTTP_GET_FAILED
  | ERROR_IPSEC_PSK_AUTH_FAILED
  | ERROR_IPSEC_CERT_AUTH_FAILED
  | ERROR_PPP_AUTH_FAILED
  | ERROR_UNKNOWN
deriving DecidableEq, Repr

/-- Network service types used by the constructors in the source. -/
inductive ConnectionType where
  | TYPE_UNKNOWN
  | TYPE_ETHERNET
  | TYPE_WIFI
  | TYPE_CELLULAR
  | TYPE_VPN
deriving DecidableEq, Repr

open ConnectionState ConnectionError ConnectionType

/-- Modelled from the spec: `Network::IsConnectingState` is declared in the
header `network_library.h`, which is not part of the snapshot.  Per the spec
the connecting states are the intermediate ones between Idle and Ready:
Association, Configuration and Carrier. -/
def IsConnectingState (s : ConnectionState) : Bool :=
  s = STATE_ASSOCIATION || s = STATE_CONFIGURATION || s = STATE_CARRIER

/-- Base `Network` entity: the typed fields that the verified operations
read or write.  Field defaults follow the `Network::Network` constructor. -/
structure Network where
  state_ : ConnectionState := STATE_UNKNOWN
  error_ : ConnectionError := ERROR_NO_ERROR
  connectable_ : Bool := true
  connection_started_ : Bool := false
  notify_failure_ : Bool := false
  ip_address_ : String := ""
  name_ : String := ""
  unique_id_ : String := ""
  service_path_ : String := ""
  device_path_ : String := ""
deriving DecidableEq, Repr

/-- `Network::InitIPAddress`: clears the cached IP address; the refetch via
`CrosListIPConfigs` is an external daemon call (outside the modelled core),
so the model keeps the cleared value. -/
def Network.InitIPAddress (n : Network) : Network :=
  { n with ip_address_ := "" }

/-- `Network::SetState`.  Returns the updated network together with a flag
recording whether `InitIPAddress` (the IP-address refresh) was invoked. -/
def Network.SetState (n : Network) (new_state : ConnectionState) :
    Network × Bool :=
  if new_state = n.state_ then
    (n, false)
  else
    let old_state := n.state_
    let n1 := { n with state_ := new_state }
    let n2 :=
      if ¬ IsConnectingState new_state then
        { n1 with connection_started_ := false }
      else n1
    if new_state = STATE_FAILURE then
      if old_state ≠ STATE_UNKNOWN ∧ old_state ≠ STATE_IDLE then
        let n3 := { n2 with notify_failure_ := true }
        let n4 :=
          if n3.error_ = ERROR_NO_ERROR then
            { n3 with error_ := ERROR_UNKNOWN }
          else n3
        (n4, false)
      else
        (n2, false)
    else
      (n2.InitIPAddress, true)

/-- Wifi security modes, as in the source enum. -/
inductive ConnectionSecurity where
  | SECURITY_UNKNOWN
  | SECURITY_NONE
  | SECURITY_WEP
  | SECURITY_WPA
  | SECURITY_RSN
  | SECURITY_8021X
  | SECURITY_PSK
deriving DecidableEq, Repr

/-- VPN provider types, as in the source enum. -/
inductive ProviderType where
  | PROVIDER_TYPE_L2TP_IPSEC_PSK
  | PROVIDER_TYPE_L2TP_IPSEC_USER_CERT
  | PROVIDER_TYPE_OPEN_VPN
  | PROVIDER_TYPE_MAX
deriving DecidableEq, Repr

/-- Client certificate selection modes, as in the source enum. -/
inductive ClientCertType where
  | CLIENT_CERT_TYPE_NONE
  | CLIENT_CERT_TYPE_PATTERN
  | CLIENT_CERT_TYPE_REF
deriving DecidableEq, Repr

open ConnectionSecurity ProviderType ClientCertType

/-- Modelled from the spec: `SecurityToString` lives in
`native_network_constants.cc`, which is not part of the snapshot.  The spec
pins `SECURITY_WEP` to the string "WEP" through the end-to-end scenario
`unique_id == "WEP|Hello"`; the remaining cases get distinct tags. -/
def SecurityToString : ConnectionSecurity → String
  | SECURITY_UNKNOWN => "unknown"
  | SECURITY_NONE => "none"
  | SECURITY_WEP => "WEP"
  | SECURITY_WPA => "wpa"
  | SECURITY_RSN => "rsn"
  | SECURITY_8021X => "802_1x"
  | SECURITY_PSK => "psk"

/-- Modelled from the spec: `ProviderTypeToString` lives in
`native_network_constants.cc`, which is not part of the snapshot.  The spec
only requires the VPN unique id to be built from the provider type and the
server hostname, so each provider type gets a distinct tag. -/
def ProviderTypeToString : ProviderType → String
  | PROVIDER_TYPE_L2TP_IPSEC_PSK => "l2tpipsec-psk"
  | PROVIDER_TYPE_L2TP_IPSEC_USER_CERT => "l2tpipsec-cert"
  | PROVIDER_TYPE_OPEN_VPN => "openvpn"
  | PROVIDER_TYPE_MAX => "provider-type-max"

/-- `WipeString`: erase the memory used by a string, then clear it.  The C++
mutates in place (`assign(size, 0)` followed by `clear()`); the model returns
both states: first the overwritten intermediate value (every byte zero, same
length) and then the final cleared value, so the zero-overwrite step that
precedes clearing is observable. -/
def WipeString (str : String) : String × String :=
  (String.mk (List.replicate str.length (Char.ofNat 0)), "")

/-- `WifiNetwork`: the typed fields touched by the verified operations.
Defaults follow the `WifiNetwork::WifiNetwork` constructor. -/
structure WifiNetwork extends Network where
  encryption_ : ConnectionSecurity := SECURITY_NONE
  passphrase_ : String := ""
  passphrase_required_ : Bool := false
  user_passphrase_ : String := ""
  identity_ : String := ""
  eap_identity_ : String := ""
  eap_anonymous_identity_ : String := ""
  eap_passphrase_ : String := ""
  eap_client_cert_pkcs11_id_ : String := ""
  eap_client_cert_type_ : ClientCertType := CLIENT_CERT_TYPE_NONE
deriving DecidableEq, Repr

/-- `VirtualNetwork`: the typed fields touched by the verified operations.
Defaults follow the `VirtualNetwork::VirtualNetwork` constructor. -/
structure VirtualNetwork extends Network where
  provider_type_ : ProviderType := PROVIDER_TYPE_L2TP_IPSEC_PSK
  server_hostname_ : String := ""
  username_ : String := ""
  group_name_ : String := ""
  ca_cert_nss_ : String := ""
  psk_passphrase_ : String := ""
  psk_passphrase_required_ : Bool := true
  user_passphrase_ : String := ""
  user_passphrase_required_ : Bool := true
  client_cert_id_ : String := ""
  client_cert_type_ : ClientCertType := CLIENT_CERT_TYPE_NONE
deriving DecidableEq, Repr

/-- `WifiNetwork::EraseCredentials`: wipes the six secret-bearing fields. -/
def WifiNetwork.EraseCredentials (w : WifiNetwork) : WifiNetwork :=
  { w with
    passphrase_ := (WipeString w.passphrase_).2
    user_passphrase_ := (WipeString w.user_passphrase_).2
    eap_client_cert_pkcs11_id_ := (WipeString w.eap_client_cert_pkcs11_id_).2
    eap_identity_ := (WipeString w.eap_identity_).2
    eap_anonymous_identity_ := (WipeString w.eap_anonymous_identity_).2
    eap_passphrase_ := (WipeString w.eap_passphrase_).2 }

/-- `VirtualNetwork::EraseCredentials`: wipes the four secret-bearing
fields. -/
def VirtualNetwork.EraseCredentials (v : VirtualNetwork) : VirtualNetwork :=
  { v with
    ca_cert_nss_ := (WipeString v.ca_cert_nss_).2
    psk_passphrase_ := (WipeString v.psk_passphrase_).2
    client_cert_id_ := (WipeString v.client_cert_id_).2
    user_passphrase_ := (WipeString v.user_passphrase_).2 }

/-- `Network::CalculateUniqueId`: the base unique id is the name. -/
def Network.CalculateUniqueId (n : Network) : Network :=
  { n with unique_id_ := n.name_ }

/-- `VirtualNetwork::CalculateUniqueId`: provider type plus server
hostname. -/
def VirtualNetwork.CalculateUniqueId (v : VirtualNetwork) : VirtualNetwork :=
  let provider_type := ProviderTypeToString v.provider_type_
  { v with unique_id_ := provider_type ++ "|" ++ v.server_hostname_ }

/-- `WifiNetwork::CalculateUniqueId`: security (with wpa/rsn folded into
psk, as flimflam treats them) plus name. -/
def WifiNetwork.CalculateUniqueId (w : WifiNetwork) : WifiNetwork :=
  let encryption :=
    if w.encryption_ = SECURITY_WPA ∨ w.encryption_ = SECURITY_RSN then
      SECURITY_PSK
    else w.encryption_
  let security := SecurityToString encryption
  { w with unique_id_ := security ++ "|" ++ w.name_ }

/-- Whether a byte is a UTF-8 continuation byte (10xxxxxx). -/
def isUtf8Cont (b : Nat) : Bool := 0x80 ≤ b && b ≤ 0xBF

/-- Modelled from the spec: the byte-level UTF-8 reader
(`base::ReadUnicodeCharacter`, not in the snapshot) driving `ValidateUTF8`.
Decodes a byte string into one unit per decoded sequence: `some cp` for a
well-formed scalar value (no overlongs, surrogates or values above
U+10FFFF), `none` for a malformed sequence (which `ValidateUTF8` replaces
with U+FFFD per the spec's error-handling design). -/
def utf8Units : List Nat → List (Option Nat)
  | [] => []
  | b :: rest =>
    if b < 0x80 then
      some b :: utf8Units rest
    else if 0xC2 ≤ b && b ≤ 0xDF then
      match rest with
      | c :: r2 =>
        if isUtf8Cont c then
          some ((b - 0xC0) * 0x40 + (c - 0x80)) :: utf8Units r2
        else
          none :: utf8Units (c :: r2)
      | [] => [none]
    else if 0xE0 ≤ b && b ≤ 0xEF then
      match rest with
      | c :: d :: r3 =>
        if isUtf8Cont c && isUtf8Cont d then
          let cp := (b - 0xE0) * 0x1000 + (c - 0x80) * 0x40 + (d - 0x80)
          if 0x800 ≤ cp && ¬ (0xD800 ≤ cp && cp ≤ 0xDFFF) then
            some cp :: utf8Units r3
          else
            none :: utf8Units r3
        else
          none :: utf8Units (c :: d :: r3)
      | _ => [none]
    else if 0xF0 ≤ b && b ≤ 0xF4 then
      match rest with
      | c :: d :: e :: r4 =>
        if isUtf8Cont c && isUtf8Cont d && isUtf8Cont e then
          let cp := (b - 0xF0) * 0x40000 + (c - 0x80) * 0x1000 +
            (d - 0x80) * 0x40 + (e - 0x80)
          if 0x10000 ≤ cp && cp ≤ 0x10FFFF then
            some cp :: utf8Units r4
          else
            none :: utf8Units r4
        else
          none :: utf8Units (c :: d :: e :: r4)
      | _ => [none]
    else
      none :: utf8Units rest

/-- Modelled from the spec: `IsStringUTF8` (base library, not in the
snapshot) holds iff every decoded unit is a well-formed scalar value. -/
def IsStringUTF8 (str : List Nat) : Bool :=
  (utf8Units str).all Option.isSome

/-- `ValidateUTF8`: decodes the byte string, keeping every readable
character with code point at least 0x20 and substituting
REPLACEMENT CHARACTER (U+FFFD) for unreadable or control sequences. -/
def ValidateUTF8 (str : List Nat) : String :=
  String.mk ((utf8Units str).map fun u =>
    match u with
    | some cp =>
      if 0x20 ≤ cp then Char.ofNat cp else Char.ofNat 0xFFFD
    | none => Char.ofNat 0xFFFD)

/-- `Network::SetName`: validates the raw byte string as UTF-8 and stores
the sanitized name. -/
def Network.SetName (n : Network) (name : List Nat) : Network :=
  { n with name_ := ValidateUTF8 name }

/-- Hexadecimal digit value, or `none` for a non-hex character. -/
def hexDigitValue (c : Char) : Option Nat :=
  if 48 ≤ c.toNat ∧ c.toNat ≤ 57 then some (c.toNat - 48)
  else if 97 ≤ c.toNat ∧ c.toNat ≤ 102 then some (c.toNat - 87)
  else if 65 ≤ c.toNat ∧ c.toNat ≤ 70 then some (c.toNat - 55)
  else none

/-- Combines consecutive pairs of hex digit values into bytes. -/
def hexPairsToBytes : List Nat → List Nat
  | msb :: lsb :: rest => (msb * 16 + lsb) :: hexPairsToBytes rest
  | _ => []

/-- Maps every character to its hex digit value, failing on the first
character that is not a hexadecimal digit. -/
def hexDigitsOf : List Char → Option (List Nat)
  | [] => some []
  | c :: rest =>
    match hexDigitValue c, hexDigitsOf rest with
    | some d, some ds => some (d :: ds)
    | _, _ => none

/-- Modelled from the spec: `base::HexStringToBytes` (base library, not in
the snapshot).  Decoding fails exactly when some character is not a
hexadecimal digit or the number of hex digits is odd; otherwise it yields
the byte sequence. -/
def HexStringToBytes (s : String) : Option (List Nat) :=
  match hexDigitsOf s.data with
  | none => none
  | some digits =>
    if digits.length % 2 = 0 then some (hexPairsToBytes digits) else none

/-- `WifiNetwork::SetSsid`: detects encoding and converts to UTF-8.  The
encoding detection and conversion (`base::DetectEncoding` together with
`base::ConvertToUtf8AndNormalize`, external i18n collaborators) are
abstracted as the oracle `conv`, returning the converted UTF-8 bytes or
`none` on failure; it is consulted only when the raw SSID is not already
valid UTF-8. -/
def WifiNetwork.SetSsid (w : WifiNetwork)
    (conv : List Nat → Option (List Nat)) (ssid : List Nat) :
    WifiNetwork × Bool :=
  let ssid_utf8 : List Nat :=
    if ¬ IsStringUTF8 ssid then (conv ssid).getD [] else []
  let w :=
    if ssid_utf8.isEmpty then
      { w with toNetwork := w.toNetwork.SetName ssid }
    else
      { w with toNetwork := w.toNetwork.SetName ssid_utf8 }
  (w, true)

/-- `WifiNetwork::SetHexSsid`: converts an ascii hex dump (e.g.
"48656c6c6f") to the raw SSID string (e.g. "Hello") and delegates to
`SetSsid`; returns false and changes nothing when an illegal hex character
is found. -/
def WifiNetwork.SetHexSsid (w : WifiNetwork)
    (conv : List Nat → Option (List Nat)) (ssid_hex : String) :
    WifiNetwork × Bool :=
  match HexStringToBytes ssid_hex with
  | none => (w, false)
  | some ssid_raw => w.SetSsid conv ssid_raw

/-- `CellularDataPlan`: usage/expiration accounting for a metered cellular
plan.  Times are `base::Time`/`base::TimeDelta` internal values
(microseconds), byte counts are int64; both are modelled as integers. -/
structure CellularDataPlan where
  plan_name : String := "Unknown"
  update_time : Int := 0
  plan_start_time : Int := 0
  plan_end_time : Int := 0
  plan_data_bytes : Int := 0
  data_bytes_used : Int := 0
deriving DecidableEq, Repr

/-- `CellularDataPlan::remaining_time`: time until plan end, floored at
zero.  `base::Time::Now()` is an external input, passed as `now`. -/
def CellularDataPlan.remaining_time (p : CellularDataPlan) (now : Int) :
    Int :=
  let time := p.plan_end_time - now
  if time < 0 then 0 else time

/-- `CellularDataPlan::remaining_data`: plan bytes minus used bytes,
floored at zero. -/
def CellularDataPlan.remaining_data (p : CellularDataPlan) : Int :=
  let data := p.plan_data_bytes - p.data_bytes_used
  if data < 0 then 0 else data

/-- Splits a character list at dots into the maximal nonempty runs of
non-dot characters, accumulating the current (reversed) run. -/
def tokenizeDotsAux : List Char → List Char → List String
  | [], cur =>
    if cur.isEmpty then [] else [String.mk cur.reverse]
  | c :: rest, cur =>
    if c = '.' then
      if cur.isEmpty then tokenizeDotsAux rest []
      else String.mk cur.reverse :: tokenizeDotsAux rest []
    else
      tokenizeDotsAux rest (c :: cur)

/-- Modelled from the spec: `base::StringTokenizer` (base library, not in
the snapshot) as used by `GetPrefixLength` with delimiter ".": successive
`GetNext` calls yield the maximal nonempty runs of non-delimiter
characters. -/
def TokenizeNetmask (netmask : String) : List String :=
  tokenizeDotsAux netmask.data []

/-- Loop body of `NetworkIPConfig::GetPrefixLength` over the netmask
tokens, carrying the token counter and the accumulated prefix length. -/
def getPrefixLengthLoop : List String → Nat → Nat → Int
  | [], count, prefixlen =>
    if count < 4 then -1 else prefixlen
  | token :: rest, count, prefixlen =>
    if count = 4 then -1
    else if prefixlen / 8 ≠ count then
      if token ≠ "0" then -1
      else getPrefixLengthLoop rest (count + 1) prefixlen
    else if token = "255" then getPrefixLengthLoop rest (count + 1) (prefixlen + 8)
    else if token = "254" then getPrefixLengthLoop rest (count + 1) (prefixlen + 7)
    else if token = "252" then getPrefixLengthLoop rest (count + 1) (prefixlen + 6)
    else if token = "248" then getPrefixLengthLoop rest (count + 1) (prefixlen + 5)
    else if token = "240" then getPrefixLengthLoop rest (count + 1) (prefixlen + 4)
    else if token = "224" then getPrefixLengthLoop rest (count + 1) (prefixlen + 3)
    else if token = "192" then getPrefixLengthLoop rest (count + 1) (prefixlen + 2)
    else if token = "128" then getPrefixLengthLoop rest (count + 1) (prefixlen + 1)
    else if token = "0" then getPrefixLengthLoop rest (count + 1) prefixlen
    else -1

/-- `NetworkIPConfig::GetPrefixLength`, as a function of the `netmask`
field (the only field it reads): the prefix length of a canonical
contiguous netmask, or the sentinel -1 for a malformed one. -/
def GetPrefixLength (netmask : String) : Int :=
  getPrefixLengthLoop (TokenizeNetmask netmask) 0 0

/-- `VirtualNetwork::IsPSKPassphraseRequired`. -/
def VirtualNetwork.IsPSKPassphraseRequired (v : VirtualNetwork) : Bool :=
  v.psk_passphrase_required_ && v.psk_passphrase_.isEmpty

/-- `VirtualNetwork::IsUserPassphraseRequired`. -/
def VirtualNetwork.IsUserPassphraseRequired (v : VirtualNetwork) : Bool :=
  v.user_passphrase_required_ && v.user_passphrase_.isEmpty

/-- `VirtualNetwork::NeedMoreInfoToConnect`. -/
def VirtualNetwork.NeedMoreInfoToConnect (v : VirtualNetwork) : Bool :=
  if v.server_hostname_.isEmpty || v.username_.isEmpty ||
      v.IsUserPassphraseRequired then true
  else if v.error_ ≠ ERROR_NO_ERROR then true
  else
    match v.provider_type_ with
    | PROVIDER_TYPE_L2TP_IPSEC_PSK =>
      if v.IsPSKPassphraseRequired then true else false
    | PROVIDER_TYPE_L2TP_IPSEC_USER_CERT =>
      if v.client_cert_id_.isEmpty then true else false
    | PROVIDER_TYPE_OPEN_VPN =>
      if v.client_cert_id_.isEmpty then true
      -- "For now we always need additional info for OpenVPN."
      else true
    | PROVIDER_TYPE_MAX => false

/-- Outcome of a `MatchCertificatePattern` call: the updated network, how
many times the continuation closure was run by the call itself, and
whether the closure was instead handed to the enrollment handler. -/
structure MatchOutcome (α : Type) where
  net : α
  closure_runs : Nat
  delegated_to_handler : Bool
deriving DecidableEq, Repr

/-- `VirtualNetwork::MatchCertificatePattern`.  The external collaborators
are passed as oracles: `pattern_empty` is `client_cert_pattern()->Empty()`,
`match_result` is the PKCS#11 id of `client_cert_pattern()->GetMatch()`
(through `x509_certificate_model::GetPkcs11Id`) when a matching certificate
exists, and `has_enrollment_handler` is whether `enrollment_handler()` is
configured. -/
def VirtualNetwork.MatchCertificatePattern (v : VirtualNetwork)
    (pattern_empty : Bool) (match_result : Option String)
    (has_enrollment_handler : Bool) : MatchOutcome VirtualNetwork :=
  if pattern_empty then
    { net := v, closure_runs := 1, delegated_to_handler := false }
  else
    match match_result with
    | some client_cert_id =>
      { net := { v with client_cert_id_ := client_cert_id },
        closure_runs := 1, delegated_to_handler := false }
    | none =>
      if has_enrollment_handler then
        -- Enrollment handler will take care of running the closure.
        { net := v, closure_runs := 0, delegated_to_handler := true }
      else
        { net := v, closure_runs := 1, delegated_to_handler := false }

/-- `WifiNetwork::SetEAPClientCertPkcs11Id`: stores the id (an empty id
clears the field), mirroring `SetOrClearStringProperty` on the `dest`
field. -/
def WifiNetwork.SetEAPClientCertPkcs11Id (w : WifiNetwork)
    (pkcs11_id : String) : WifiNetwork :=
  { w with eap_client_cert_pkcs11_id_ := pkcs11_id }

/-- `WifiNetwork::MatchCertificatePattern`, with the same oracles as the
VPN variant; a found certificate is recorded via
`SetEAPClientCertPkcs11Id`. -/
def WifiNetwork.MatchCertificatePattern (w : WifiNetwork)
    (pattern_empty : Bool) (match_result : Option String)
    (has_enrollment_handler : Bool) : MatchOutcome WifiNetwork :=
  if pattern_empty then
    { net := w, closure_runs := 1, delegated_to_handler := false }
  else
    match match_result with
    | some pkcs11_id =>
      { net := w.SetEAPClientCertPkcs11Id pkcs11_id,
        closure_runs := 1, delegated_to_handler := false }
    | none =>
      if has_enrollment_handler then
        -- Enrollment handler will take care of running the closure.
        { net := w, closure_runs := 0, delegated_to_handler := true }
      else
        { net := w, closure_runs := 1, delegated_to_handler := false }

/-! Theorems about the embedded operations. -/

/-- C8: for every Network, calling `SetState` with a new state equal to the
current state is a no-op: the network is returned unchanged (every field,
including `state_`, `error_`, `notify_failure_`, `connection_started_` and
`ip_address_`, keeps its value) and no IP-address refresh is performed. -/
theorem setState_same_state_noop (n : Network) :
    n.SetState n.state_ = (n, false) := by
  simp [Network.SetState]

/-- C7: for every `CellularDataPlan` and every current time,
`remaining_data` equals `max 0 (plan_data_bytes - data_bytes_used)` and
`remaining_time` equals `max 0 (plan_end_time - now)`; both are always
nonnegative, including when usage exceeds the allocation or the plan has
expired. -/
theorem remaining_data_time_nonneg (p : CellularDataPlan) (now : Int) :
    p.remaining_data = max 0 (p.plan_data_bytes - p.data_bytes_used) ∧
    0 ≤ p.remaining_data ∧
    p.remaining_time now = max 0 (p.plan_end_time - now) ∧
    0 ≤ p.remaining_time now := by
  refine ⟨?_, ?_, ?_, ?_⟩ <;>
    simp only [CellularDataPlan.remaining_data,
      CellularDataPlan.remaining_time] <;>
    split <;> omega

/-- C4: after `WifiNetwork::EraseCredentials` the six secret fields are all
empty; after `VirtualNetwork::EraseCredentials` the four secret fields are
all empty; and `WipeString` first overwrites each secret with zero bytes of
the same length before producing the cleared value. -/
theorem eraseCredentials_wipes_secrets :
    (∀ w : WifiNetwork,
      w.EraseCredentials.passphrase_ = "" ∧
      w.EraseCredentials.user_passphrase_ = "" ∧
      w.EraseCredentials.eap_client_cert_pkcs11_id_ = "" ∧
      w.EraseCredentials.eap_identity_ = "" ∧
      w.EraseCredentials.eap_anonymous_identity_ = "" ∧
      w.EraseCredentials.eap_passphrase_ = "") ∧
    (∀ v : VirtualNetwork,
      v.EraseCredentials.ca_cert_nss_ = "" ∧
      v.EraseCredentials.psk_passphrase_ = "" ∧
      v.EraseCredentials.client_cert_id_ = "" ∧
      v.EraseCredentials.user_passphrase_ = "") ∧
    (∀ s : String,
      (WipeString s).1 = String.mk (List.replicate s.length (Char.ofNat 0)) ∧
      (WipeString s).2 = "") := by
  refine ⟨fun w => ?_, fun v => ?_, fun s => ⟨rfl, rfl⟩⟩ <;>
    simp [WifiNetwork.EraseCredentials, VirtualNetwork.EraseCredentials,
      WipeString]

/-- C5: for each Network variant, the unique id computed by
`CalculateUniqueId` depends only on the documented identity fields (name
for the base; security and name for Wifi; provider type and server
hostname for VPN) — in particular two instances agreeing on those fields
but differing in `service_path_` get equal unique ids — and recomputing
without intervening field mutation changes nothing. -/
theorem calculateUniqueId_identity_fields_only :
    (∀ n1 n2 : Network, n1.name_ = n2.name_ →
      n1.CalculateUniqueId.unique_id_ = n2.CalculateUniqueId.unique_id_) ∧
    (∀ w1 w2 : WifiNetwork,
      w1.encryption_ = w2.encryption_ → w1.name_ = w2.name_ →
      w1.CalculateUniqueId.unique_id_ = w2.CalculateUniqueId.unique_id_) ∧
    (∀ v1 v2 : VirtualNetwork,
      v1.provider_type_ = v2.provider_type_ →
      v1.server_hostname_ = v2.server_hostname_ →
      v1.CalculateUniqueId.unique_id_ = v2.CalculateUniqueId.unique_id_) ∧
    (∀ n : Network, n.CalculateUniqueId.CalculateUniqueId =
      n.CalculateUniqueId) ∧
    (∀ w : WifiNetwork, w.CalculateUniqueId.CalculateUniqueId =
      w.CalculateUniqueId) ∧
    (∀ v : VirtualNetwork, v.CalculateUniqueId.CalculateUniqueId =
      v.CalculateUniqueId) := by
  refine ⟨fun n1 n2 h => ?_, fun w1 w2 h1 h2 => ?_, fun v1 v2 h1 h2 => ?_,
    fun n => ?_, fun w => ?_, fun v => ?_⟩ <;>
    simp_all [Network.CalculateUniqueId, WifiNetwork.CalculateUniqueId,
      VirtualNetwork.CalculateUniqueId]

/-- Witness for C5: concrete same-variant instances agreeing on the
identity fields but with different service paths get equal unique ids. -/
theorem calculateUniqueId_identity_fields_only_witness :
    (Network.CalculateUniqueId
        { name_ := "eth0", service_path_ := "/service/1" }).unique_id_ =
      (Network.CalculateUniqueId
        { name_ := "eth0", service_path_ := "/service/2" }).unique_id_ ∧
    (WifiNetwork.CalculateUniqueId
        { encryption_ := ConnectionSecurity.SECURITY_WEP, name_ := "Hello",
          service_path_ := "/service/3" }).unique_id_ =
      (WifiNetwork.CalculateUniqueId
        { encryption_ := ConnectionSecurity.SECURITY_WEP, name_ := "Hello",
          service_path_ := "/service/4" }).unique_id_ ∧
    (VirtualNetwork.CalculateUniqueId
        { provider_type_ := ProviderType.PROVIDER_TYPE_OPEN_VPN,
          server_hostname_ := "vpn.example.com",
          service_path_ := "/service/5" }).unique_id_ =
      (VirtualNetwork.CalculateUniqueId
        { provider_type_ := ProviderType.PROVIDER_TYPE_OPEN_VPN,
          server_hostname_ := "vpn.example.com",
          service_path_ := "/service/6" }).unique_id_ :=
  ⟨calculateUniqueId_identity_fields_only.1 _ _ rfl,
   calculateUniqueId_identity_fields_only.2.1 _ _ rfl rfl,
   calculateUniqueId_identity_fields_only.2.2.1 _ _ rfl rfl⟩

/-- C1: `SetState(STATE_FAILURE)` from one of Association, Configuration,
Ready, Portal, Online or Carrier sets `notify_failure_` and, if `error_`
was `ERROR_NO_ERROR`, forces it to `ERROR_UNKNOWN`; from `STATE_IDLE` or
`STATE_UNKNOWN` it leaves `notify_failure_` untouched. -/
theorem setState_failure_notification (n : Network) :
    ((n.state_ = STATE_ASSOCIATION ∨ n.state_ = STATE_CONFIGURATION ∨
      n.state_ = STATE_READY ∨ n.state_ = STATE_PORTAL ∨
      n.state_ = STATE_ONLINE ∨ n.state_ = STATE_CARRIER) →
      (n.SetState STATE_FAILURE).1.notify_failure_ = true ∧
      (n.error_ = ERROR_NO_ERROR →
        (n.SetState STATE_FAILURE).1.error_ = ERROR_UNKNOWN)) ∧
    ((n.state_ = STATE_IDLE ∨ n.state_ = STATE_UNKNOWN) →
      (n.SetState STATE_FAILURE).1.notify_failure_ = n.notify_failure_) := by
  constructor
  · rintro (h | h | h | h | h | h) <;>
      constructor <;>
      intros <;>
      simp_all [Network.SetState, Network.InitIPAddress,
        IsConnectingState] <;>
      split <;> simp_all
  · rintro (h | h) <;>
      simp [Network.SetState, Network.InitIPAddress, IsConnectingState, h]

/-- Witness for C1: a Ready network with no explicit error transitions to
Failure with the notify flag raised and the error forced to Unknown, while
an Idle network keeps its notify flag down. -/
theorem setState_failure_notification_witness :
    (Network.SetState { state_ := STATE_READY }
        STATE_FAILURE).1.notify_failure_ = true ∧
    (Network.SetState { state_ := STATE_READY }
        STATE_FAILURE).1.error_ = ERROR_UNKNOWN ∧
    (Network.SetState { state_ := STATE_IDLE }
        STATE_FAILURE).1.notify_failure_ = false :=
  ⟨((setState_failure_notification { state_ := STATE_READY }).1
      (Or.inr (Or.inr (Or.inl rfl)))).1,
   ((setState_failure_notification { state_ := STATE_READY }).1
      (Or.inr (Or.inr (Or.inl rfl)))).2 rfl,
   (setState_failure_notification { state_ := STATE_IDLE }).2 (Or.inl rfl)⟩

/-- C9: a VPN network with provider type OpenVPN reports
`NeedMoreInfoToConnect = true` even when the server hostname and username
are set, no user passphrase is required, there is no error and a client
certificate id is present. -/
theorem needMoreInfoToConnect_openvpn_always (v : VirtualNetwork)
    (hp : v.provider_type_ = PROVIDER_TYPE_OPEN_VPN)
    (hh : v.server_hostname_ ≠ "") (hu : v.username_ ≠ "")
    (hup : v.IsUserPassphraseRequired = false)
    (he : v.error_ = ERROR_NO_ERROR) (hc : v.client_cert_id_ ≠ "") :
    v.NeedMoreInfoToConnect = true := by
  simp [VirtualNetwork.NeedMoreInfoToConnect, hp, hup, he,
    String.isEmpty_iff, hh, hu, hc]

/-- Witness for C9: a fully-credentialed concrete OpenVPN network still
needs more info to connect. -/
theorem needMoreInfoToConnect_openvpn_always_witness :
    VirtualNetwork.NeedMoreInfoToConnect
      { provider_type_ := PROVIDER_TYPE_OPEN_VPN,
        server_hostname_ := "vpn.example.com", username_ := "user",
        user_passphrase_required_ := false,
        client_cert_id_ := "cert-id" } = true :=
  needMoreInfoToConnect_openvpn_always _ rfl (by decide) (by decide)
    (by decide) rfl (by decide)

/-- C3: a single `MatchCertificatePattern` call runs the continuation
closure at most once — exactly once when the pattern is empty, when a
matching certificate is found (with the resolved id written into the
client-cert-id field), or when no match exists and no enrollment handler
is configured — and zero times, delegating to the enrollment handler,
when no match exists and a handler is configured; for both the VPN and
the Wifi variant. -/
theorem matchCertificatePattern_single_shot (v : VirtualNetwork)
    (w : WifiNetwork) (pattern_empty : Bool)
    (match_result : Option String) (has_handler : Bool) :
    ((v.MatchCertificatePattern pattern_empty match_result
        has_handler).closure_runs ≤ 1 ∧
      (w.MatchCertificatePattern pattern_empty match_result
        has_handler).closure_runs ≤ 1) ∧
    (pattern_empty = true →
      v.MatchCertificatePattern pattern_empty match_result has_handler =
        { net := v, closure_runs := 1, delegated_to_handler := false } ∧
      w.MatchCertificatePattern pattern_empty match_result has_handler =
        { net := w, closure_runs := 1, delegated_to_handler := false }) ∧
    (∀ cert_id, pattern_empty = false → match_result = some cert_id →
      v.MatchCertificatePattern pattern_empty match_result has_handler =
        { net := { v with client_cert_id_ := cert_id },
          closure_runs := 1, delegated_to_handler := false } ∧
      w.MatchCertificatePattern pattern_empty match_result has_handler =
        { net := { w with eap_client_cert_pkcs11_id_ := cert_id },
          closure_runs := 1, delegated_to_handler := false }) ∧
    (pattern_empty = false → match_result = none → has_handler = false →
      v.MatchCertificatePattern pattern_empty match_result has_handler =
        { net := v, closure_runs := 1, delegated_to_handler := false } ∧
      w.MatchCertificatePattern pattern_empty match_result has_handler =
        { net := w, closure_runs := 1, delegated_to_handler := false }) ∧
    (pattern_empty = false → match_result = none → has_handler = true →
      v.MatchCertificatePattern pattern_empty match_result has_handler =
        { net := v, closure_runs := 0, delegated_to_handler := true } ∧
      w.MatchCertificatePattern pattern_empty match_result has_handler =
        { net := w, closure_runs := 0, delegated_to_handler := true }) := by
  cases pattern_empty <;> cases match_result <;> cases has_handler <;>
    simp [VirtualNetwork.MatchCertificatePattern,
      WifiNetwork.MatchCertificatePattern,
      WifiNetwork.SetEAPClientCertPkcs11Id]

/-- Witness for C3: concrete runs of all four outcomes — empty pattern,
match found (id written), no match without handler, no match with
handler. -/
theorem matchCertificatePattern_single_shot_witness :
    (VirtualNetwork.MatchCertificatePattern {} true none false).closure_runs
      = 1 ∧
    (VirtualNetwork.MatchCertificatePattern {} false (some "id1")
        false).net.client_cert_id_ = "id1" ∧
    (WifiNetwork.MatchCertificatePattern {} false none
        false).closure_runs = 1 ∧
    (WifiNetwork.MatchCertificatePattern {} false none
        true).closure_runs = 0 ∧
    (WifiNetwork.MatchCertificatePattern {} false none
        true).delegated_to_handler = true := by
  have h1 := (matchCertificatePattern_single_shot {} {} true none
    false).2.1 rfl
  have h2 := (matchCertificatePattern_single_shot {} {} false (some "id1")
    false).2.2.1 "id1" rfl rfl
  have h3 := (matchCertificatePattern_single_shot {} {} false none
    false).2.2.2.1 rfl rfl rfl
  have h4 := (matchCertificatePattern_single_shot {} {} false none
    true).2.2.2.2 rfl rfl rfl
  exact ⟨by rw [h1.1], by rw [h2.1], by rw [h3.2], by rw [h4.2],
    by rw [h4.2]⟩

/-- C6: a WEP Wifi network given the hex SSID "48656c6c6f" decodes it to
the name "Hello", `SetHexSsid` succeeds, and a subsequent
`CalculateUniqueId` yields the unique id "WEP|Hello"; this holds for any
encoding-conversion oracle, since the decoded SSID is already valid
UTF-8. -/
theorem setHexSsid_wep_hello (w : WifiNetwork)
    (conv : List Nat → Option (List Nat))
    (hw : w.encryption_ = SECURITY_WEP) :
    (w.SetHexSsid conv "48656c6c6f").2 = true ∧
    (w.SetHexSsid conv "48656c6c6f").1.name_ = "Hello" ∧
    (w.SetHexSsid conv "48656c6c6f").1.CalculateUniqueId.unique_id_ =
      "WEP|Hello" := by
  have hbytes : HexStringToBytes "48656c6c6f" =
      some [72, 101, 108, 108, 111] := by decide
  have hutf : IsStringUTF8 [72, 101, 108, 108, 111] = true := by decide
  have hval : ValidateUTF8 [72, 101, 108, 108, 111] = "Hello" := by decide
  simp [WifiNetwork.SetHexSsid, hbytes, WifiNetwork.SetSsid, hutf,
    Network.SetName, hval, WifiNetwork.CalculateUniqueId, hw,
    SecurityToString]

/-- Witness for C6: the scenario run on a concrete WEP network. -/
theorem setHexSsid_wep_hello_witness :
    (WifiNetwork.SetHexSsid { encryption_ := SECURITY_WEP }
        (fun _ => none) "48656c6c6f").2 = true ∧
    (WifiNetwork.SetHexSsid { encryption_ := SECURITY_WEP }
        (fun _ => none) "48656c6c6f").1.name_ = "Hello" ∧
    ((WifiNetwork.SetHexSsid { encryption_ := SECURITY_WEP }
        (fun _ => none) "48656c6c6f").1.CalculateUniqueId).unique_id_ =
      "WEP|Hello" :=
  setHexSsid_wep_hello { encryption_ := SECURITY_WEP } (fun _ => none) rfl

/-- Collecting hex digit values fails when some character is not a
hexadecimal digit. -/
lemma hexDigitsOf_eq_none (l : List Char) (c : Char) (hc : c ∈ l)
    (hbad : hexDigitValue c = none) : hexDigitsOf l = none := by
  induction l with
  | nil => cases hc
  | cons a as ih =>
    rcases List.mem_cons.mp hc with h | h
    · subst h
      simp [hexDigitsOf, hbad]
    · cases ha : hexDigitValue a <;>
        simp [hexDigitsOf, ha, ih h]

/-- Collecting hex digit values preserves the length on success. -/
lemma hexDigitsOf_length (l : List Char) :
    ∀ ds : List Nat, hexDigitsOf l = some ds → ds.length = l.length := by
  induction l with
  | nil =>
    intro ds h
    simp [hexDigitsOf] at h
    simp [← h]
  | cons a as ih =>
    intro ds h
    cases ha : hexDigitValue a with
    | none => simp [hexDigitsOf, ha] at h
    | some d =>
      cases hs : hexDigitsOf as with
      | none => simp [hexDigitsOf, ha, hs] at h
      | some ds2 =>
        simp [hexDigitsOf, ha, hs] at h
        simp [← h, ih ds2 hs]

/-- C10: whenever hex decoding of the SSID fails — some character is not a
hexadecimal digit, or the number of hex digits is odd — `SetHexSsid`
returns false and leaves the network unchanged (in particular the name
keeps its prior value). -/
theorem setHexSsid_decode_failure_noop (w : WifiNetwork)
    (conv : List Nat → Option (List Nat)) (ssid_hex : String)
    (h : (∃ c ∈ ssid_hex.data, hexDigitValue c = none) ∨
      ssid_hex.length % 2 = 1) :
    HexStringToBytes ssid_hex = none ∧
    w.SetHexSsid conv ssid_hex = (w, false) := by
  have hn : HexStringToBytes ssid_hex = none := by
    rcases h with ⟨c, hc, hbad⟩ | hodd
    · simp [HexStringToBytes, hexDigitsOf_eq_none _ c hc hbad]
    · unfold HexStringToBytes
      cases hm : hexDigitsOf ssid_hex.data with
      | none => rfl
      | some ds =>
        have hlen : ds.length = ssid_hex.length :=
          hexDigitsOf_length _ ds hm
        show (if ds.length % 2 = 0 then some (hexPairsToBytes ds)
          else none) = none
        rw [if_neg (by omega)]
  exact ⟨hn, by simp [WifiNetwork.SetHexSsid, hn]⟩

/-- Witness for C10: the two-character input "4g" (illegal hex char) and a
concrete network. -/
theorem setHexSsid_decode_failure_noop_witness :
    HexStringToBytes "4g" = none ∧
    WifiNetwork.SetHexSsid {} (fun _ => none) "4g" = ({}, false) :=
  setHexSsid_decode_failure_noop {} (fun _ => none) "4g"
    (Or.inl (by decide))

/-- The canonical netmask byte strings recognized by the prefix-length
loop. -/
def canonicalMaskTokens : List String :=
  ["255", "254", "252", "248", "240", "224", "192", "128", "0"]

set_option maxHeartbeats 1000000 in
/-- The prefix-length loop rejects token lists that do not bring the token
counter exactly to four. -/
lemma getPrefixLengthLoop_wrong_count (toks : List String) :
    ∀ count prefixlen, count ≤ 4 → toks.length + count ≠ 4 →
      getPrefixLengthLoop toks count prefixlen = -1 := by
  induction toks with
  | nil =>
    intro count prefixlen hle hne
    simp only [getPrefixLengthLoop, List.length_nil] at *
    rw [if_pos (by omega)]
  | cons token rest ih =>
    intro count prefixlen hle hne
    simp only [List.length_cons] at hne
    simp only [getPrefixLengthLoop]
    split_ifs <;>
      first
        | rfl
        | exact ih _ _ (by omega) (by omega)

set_option maxHeartbeats 1000000 in
/-- The prefix-length loop rejects any token list containing a
non-canonical token. -/
lemma getPrefixLengthLoop_bad_token (toks : List String) :
    ∀ count prefixlen (t : String), t ∈ toks →
      t ∉ canonicalMaskTokens →
      getPrefixLengthLoop toks count prefixlen = -1 := by
  induction toks with
  | nil =>
    intro count prefixlen t ht hbad
    cases ht
  | cons token rest ih =>
    intro count prefixlen t ht hbad
    have hb : ¬ (t = "255" ∨ t = "254" ∨ t = "252" ∨ t = "248" ∨
        t = "240" ∨ t = "224" ∨ t = "192" ∨ t = "128" ∨ t = "0") := by
      simpa [canonicalMaskTokens] using hbad
    push_neg at hb
    obtain ⟨h1, h2, h3, h4, h5, h6, h7, h8, h9⟩ := hb
    rcases List.mem_cons.mp ht with rfl | hmem
    · simp only [getPrefixLengthLoop]
      by_cases hc : count = 4
      · rw [if_pos hc]
      · rw [if_neg hc]
        by_cases hp : prefixlen / 8 ≠ count
        · rw [if_pos hp, if_pos h9]
        · rw [if_neg hp, if_neg h1, if_neg h2, if_neg h3, if_neg h4,
            if_neg h5, if_neg h6, if_neg h7, if_neg h8, if_neg h9]
    · simp only [getPrefixLengthLoop]
      split_ifs <;>
        first
          | rfl
          | exact ih _ _ _ hmem hbad

/-- C2: `GetPrefixLength` returns the sentinel -1 (rather than throwing)
whenever the netmask does not tokenize into exactly four canonical mask
bytes in contiguous high-to-low order — in particular for any token
outside 255/254/252/248/240/224/192/128/0, for fewer or more than four
tokens, and for the non-contiguous "255.224.255.0" — and returns the
correct prefix length for canonical forms: 24 for "255.255.255.0" and 17
for "255.255.128.0". -/
theorem getPrefixLength_sentinel_and_canonical (netmask : String) :
    ((TokenizeNetmask netmask).length ≠ 4 →
      GetPrefixLength netmask = -1) ∧
    (∀ token ∈ TokenizeNetmask netmask, token ∉ canonicalMaskTokens →
      GetPrefixLength netmask = -1) ∧
    GetPrefixLength "255.224.255.0" = -1 ∧
    GetPrefixLength "255.255.255.0" = 24 ∧
    GetPrefixLength "255.255.128.0" = 17 := by
  refine ⟨fun h => ?_, fun token hmem hbad => ?_, by decide, by decide,
    by decide⟩
  · exact getPrefixLengthLoop_wrong_count _ 0 0 (by omega) (by omega)
  · exact getPrefixLengthLoop_bad_token _ 0 0 token hmem hbad

/-- Witness for C2: concrete malformed netmasks — a non-canonical byte,
too few tokens, a non-canonical ordering — and the canonical examples. -/
theorem getPrefixLength_sentinel_and_canonical_witness :
    GetPrefixLength "1.2.3" = -1 ∧
    GetPrefixLength "255.255.255.13" = -1 ∧
    GetPrefixLength "255.224.255.0" = -1 ∧
    GetPrefixLength "255.255.255.0" = 24 ∧
    GetPrefixLength "255.255.128.0" = 17 :=
  ⟨(getPrefixLength_sentinel_and_canonical "1.2.3").1 (by decide),
   (getPrefixLength_sentinel_and_canonical "255.255.255.13").2.1 "13"
     (by decide) (by decide),
   (getPrefixLength_sentinel_and_canonical "255.224.255.0").2.2.1,
   (getPrefixLength_sentinel_and_canonical "255.255.255.0").2.2.2.1,
   (getPrefixLength_sentinel_and_canonical "255.255.128.0").2.2.2.2⟩

end chromeos
